import Mathlib

/-!
Shallow embedding of the BOOKFORGE job-orchestration core and the route
handlers the claims concern.  The Client Poller, the Plan Gate's client
side, the research flow and the two API routes are translated from the
dashboard component and the route files; the stored-jobs table and its
row-level-security policies are translated from the SQL migration.  The
server-side Job Store and Plan Gate enforcement run in a service that is
not part of this repository's source tree, so those two pieces are
modelled from the specification and marked as such.
-/

namespace BookForge

/-! ## Plan tiers and the dashboard's generation request (dashboard component) -/

/-- The three subscription tiers, as the `plan` state of the dashboard
component and the `plan` column check constraint list them. -/
inductive PlanTier
  | starter
  | pro
  | enterprise
deriving DecidableEq, Repr, Fintype

/-- The three stage flags the dashboard puts into the generation payload:
`generate_full_book`, `generate_cover_image`, `generate_audiobook`. -/
structure GenerationFlags where
  generate_full_book : Bool
  generate_cover_image : Bool
  generate_audiobook : Bool
deriving DecidableEq, Repr

/-- Stage flags of the payload built in `generateBook`:
`generate_full_book: plan === "pro" || plan === "enterprise"`,
`generate_cover_image: plan === "pro" || plan === "enterprise"`,
`generate_audiobook: false`. -/
def dashboardFlags (plan : PlanTier) : GenerationFlags :=
  { generate_full_book := plan == PlanTier.pro || plan == PlanTier.enterprise
    generate_cover_image := plan == PlanTier.pro || plan == PlanTier.enterprise
    generate_audiobook := false }

/-- Which submission path a request takes: the synchronous endpoint
`/api/books/generate` or the asynchronous `/api/books/generate-async`
followed by polling. -/
inductive SubmitPath
  | sync
  | async
deriving DecidableEq, Repr

/-- Path selection in `generateBook`: `if (plan === "pro" || plan === "enterprise")`
the async job branch runs, otherwise the synchronous request. -/
def dashboardPath (plan : PlanTier) : SubmitPath :=
  if plan == PlanTier.pro || plan == PlanTier.enterprise then SubmitPath.async
  else SubmitPath.sync

/-- Modelled from the spec: the server-side Plan Gate (spec section 4.3) is not
under this repository's source tree; only its dashboard caller is.  Decision
table from the spec: the lowest tier runs only the mandatory stages; the middle
and highest tiers enable full manuscript and cover image; only the highest tier
enables the audiobook stage. -/
def planGateStages : PlanTier → GenerationFlags
  | PlanTier.starter => ⟨false, false, false⟩
  | PlanTier.pro => ⟨true, true, false⟩
  | PlanTier.enterprise => ⟨true, true, true⟩

/-- Modelled from the spec: execution mode chosen by the server-side Plan Gate
(spec section 4.3) — the lowest tier always runs the synchronous path, the
middle and highest tiers the asynchronous job path. -/
def planGatePath : PlanTier → SubmitPath
  | PlanTier.starter => SubmitPath.sync
  | PlanTier.pro => SubmitPath.async
  | PlanTier.enterprise => SubmitPath.async

/-! ## The Client Poller (dashboard `generateBook`, async branch)

The `while (true)` loop: each iteration checks the wall-clock timeout,
sleeps 1800 ms, fetches `/api/books/jobs/{job_id}`, throws on a non-ok
response, updates the displayed progress and step, returns the result on
`completed`, throws the stored error on `failed`, and otherwise loops.
Time is embedded as a clock function giving the `Date.now()` reading at
the k-th timeout check; the payload type of `status.result` is an
arbitrary type `α`. -/

/-- One fetched job-status body, as the loop reads it:
`{ status, progress, step, result, error }`. -/
structure JobStatusResponse (α : Type) where
  status : String
  progress : Option Int
  step : Option String
  result : Option α
  error : Option String
deriving DecidableEq, Repr

/-- Outcome of one status fetch: `notOk` when `!statusRes.ok`, otherwise the
parsed body. -/
inductive FetchResult (α : Type)
  | notOk
  | ok (resp : JobStatusResponse α)
deriving DecidableEq, Repr

/-- The two pieces of displayed state the loop mutates:
`generationProgress` and `generationStep`. -/
structure Display where
  progress : Int
  step : String
deriving DecidableEq, Repr

/-- How one run of the polling loop ends.  `timeout` is the
`"Generation timed out"` throw, `fetchError` the
`"Could not read generation status"` throw on a non-ok fetch, `jobFailed`
the throw of the stored error on status `failed`, `completed` the break
returning `status.result`, and `fuelOut` marks exhausted fuel of the
embedding (shown unreachable under the clock hypotheses). -/
inductive PollOutcome (α : Type)
  | timeout
  | fetchError
  | jobFailed (message : String)
  | completed (result : Option α)
  | fuelOut
deriving DecidableEq, Repr

/-- JavaScript `s || d` for a nullable string: the default replaces null and
the empty string. -/
def jsOrString : Option String → String → String
  | none, d => d
  | some s, d => if s.isEmpty then d else s

/-- The displayed-state update of one loop iteration:
`if (typeof status.progress === "number") setGenerationProgress(Math.min(99, Math.max(status.progress, 10)))`
and `if (status.step) setGenerationStep(status.step)`. -/
def displayUpdate {α : Type} (resp : JobStatusResponse α) (d : Display) : Display :=
  let d1 := match resp.progress with
    | some p => { d with progress := min 99 (max p 10) }
    | none => d
  match resp.step with
  | some st => if st.isEmpty then d1 else { d1 with step := st }
  | none => d1

/-- The inter-poll delay: `await new Promise((r) => setTimeout(r, 1800))`. -/
def pollDelayMs : Nat := 1800

/-- The overall timeout: `const timeoutMs = 15 * 60 * 1000`. -/
def generationTimeoutMs : Nat := 15 * 60 * 1000

/-- The polling loop.  `now k` is the `Date.now()` reading at the k-th
timeout check, `fetch k` the outcome of the k-th status fetch, `start` the
`startTime` reading, and `fuel` bounds the embedding's recursion. -/
def pollLoop {α : Type} (now : Nat → Nat) (fetch : Nat → FetchResult α)
    (start timeoutMs : Nat) : Nat → Nat → Display → PollOutcome α × Display
  | 0, _, d => (PollOutcome.fuelOut, d)
  | fuel + 1, k, d =>
    if now k - start > timeoutMs then (PollOutcome.timeout, d)
    else
      match fetch k with
      | FetchResult.notOk => (PollOutcome.fetchError, d)
      | FetchResult.ok resp =>
        let d2 := displayUpdate resp d
        if resp.status = "completed" then (PollOutcome.completed resp.result, d2)
        else if resp.status = "failed" then
          (PollOutcome.jobFailed (jsOrString resp.error "Generation failed"), d2)
        else pollLoop now fetch start timeoutMs fuel (k + 1) d2

/-! ## The Job Store (modelled from the spec)

The Job Store runs in the generation service behind `/api/books/*`, which is
not part of this repository's source tree — only its callers (the dashboard)
and the table it persists to (the SQL migration) are.  The operations below
are modelled from spec section 4.1. -/

/-- The four job states of the spec and of the `status` check constraint of
`book_jobs`. -/
inductive JobStatus
  | queued
  | running
  | completed
  | failed
deriving DecidableEq, Repr

/-- Whether a status is terminal: `completed` or `failed`. -/
def JobStatus.isTerminal : JobStatus → Bool
  | JobStatus.completed => true
  | JobStatus.failed => true
  | _ => false

/-- Modelled from the spec: the generation request payload the Job Store
validates (spec section 4.1 — required fields genre, subgenre, audience;
the rest is carried through opaquely). -/
structure RequestPayload where
  genre : Option String
  subgenre : Option String
  target_audience : Option String
  keywords : List String
  plan : PlanTier
  flags : GenerationFlags
deriving DecidableEq, Repr

/-- Modelled from the spec: one stored job record (spec section 3) with a
result payload of type `α`. -/
structure JobRecord (α : Type) where
  status : JobStatus
  progress : Nat
  step : Option String
  request : RequestPayload
  result : Option α
  error : Option String
deriving DecidableEq, Repr

/-- The request-level error taxonomy of spec section 7 that the Job Store's
operations raise. -/
inductive JobStoreError
  | validationError
  | notFoundError
  | invalidTransitionError
deriving DecidableEq, Repr

/-- Modelled from the spec: `createJob` (spec section 4.1) — status `queued`,
progress 0, no result, no error; `ValidationError` when genre, subgenre or
audience is missing. -/
def createJob (α : Type) (request : RequestPayload) :
    Except JobStoreError (JobRecord α) :=
  if request.genre.isNone || request.subgenre.isNone ||
      request.target_audience.isNone then
    Except.error JobStoreError.validationError
  else
    Except.ok
      { status := JobStatus.queued, progress := 0, step := none
        request := request, result := none, error := none }

/-- Modelled from the spec: `updateProgress` (spec section 4.1) — transitions
status, progress and step; rejects with `InvalidTransitionError` any attempt
to modify a job already in a terminal state.  Terminal states are entered only
through `completeJob` and `failJob`, so a terminal target status is also
rejected. -/
def updateProgress {α : Type} (j : JobRecord α) (status : JobStatus)
    (progress : Nat) (step : Option String) :
    Except JobStoreError (JobRecord α) :=
  if j.status.isTerminal then Except.error JobStoreError.invalidTransitionError
  else if status.isTerminal then Except.error JobStoreError.invalidTransitionError
  else Except.ok { j with status := status, progress := progress, step := step }

/-- Modelled from the spec: `completeJob` (spec section 4.1) — sets status
`completed`, progress 100 and the result; a second call on an already
terminal job is rejected, never double-applied. -/
def completeJob {α : Type} (j : JobRecord α) (result : α) :
    Except JobStoreError (JobRecord α) :=
  if j.status.isTerminal then Except.error JobStoreError.invalidTransitionError
  else
    Except.ok
      { j with status := JobStatus.completed, progress := 100
               result := some result }

/-- Modelled from the spec: `failJob` (spec section 4.1) — sets status
`failed` and stores the error; a terminal job rejects the call. -/
def failJob {α : Type} (j : JobRecord α) (message : String) :
    Except JobStoreError (JobRecord α) :=
  if j.status.isTerminal then Except.error JobStoreError.invalidTransitionError
  else Except.ok { j with status := JobStatus.failed, error := some message }

/-- One mutation request against a stored job: the three mutating Job Store
operations. -/
inductive JobOp (α : Type)
  | update (status : JobStatus) (progress : Nat) (step : Option String)
  | complete (result : α)
  | fail (message : String)
deriving DecidableEq, Repr

/-- Dispatch of one mutation request to the Job Store operation it names. -/
def applyOp {α : Type} : JobOp α → JobRecord α → Except JobStoreError (JobRecord α)
  | JobOp.update status progress step, j => updateProgress j status progress step
  | JobOp.complete result, j => completeJob j result
  | JobOp.fail message, j => failJob j message

/-- A sequence of mutation requests applied in order; a rejected request
leaves the stored record unchanged. -/
def runOps {α : Type} (ops : List (JobOp α)) (j : JobRecord α) : JobRecord α :=
  ops.foldl
    (fun j op =>
      match applyOp op j with
      | Except.ok j2 => j2
      | Except.error _ => j) j

/-- The result/error exclusivity invariant of spec sections 3 and 8: a
completed job has a result and no error, a failed job an error and no
result, and a queued or running job neither. -/
def resultErrorInvariant {α : Type} (j : JobRecord α) : Prop :=
  match j.status with
  | JobStatus.completed => j.result.isSome ∧ j.error = none
  | JobStatus.failed => j.error.isSome ∧ j.result = none
  | _ => j.result = none ∧ j.error = none

/-! ## Truthiness

JavaScript truthiness for a nullable string: null, undefined and the empty
string are falsy. -/

/-- JavaScript truthiness of a nullable string value. -/
def jsTruthy : Option String → Bool
  | none => false
  | some s => !s.isEmpty

/-! ## The market-research flow (dashboard `runResearch`)

`runResearch` posts to `/api/research/analyze`; on any failure it falls back
to the hardcoded `mockResearch` constant with no environment check. -/

/-- One market opportunity as the dashboard types it. -/
structure Opportunity where
  genre : String
  subgenre : String
  demand_score : ℚ
  competition_level : String
  trend_direction : String
  suggested_price_ebook : ℚ
  suggested_price_paperback : ℚ
  target_audience : String
  keywords : List String
  why_now : String
  estimated_monthly_revenue : String
deriving DecidableEq, Repr

/-- The research response as the dashboard types it. -/
structure ResearchResult where
  opportunities : List Opportunity
  market_summary : String
  recommended_opportunity : Opportunity
  research_sources : List String
deriving DecidableEq, Repr

/-- The hardcoded `mockResearch` constant of the dashboard component. -/
def mockResearch : ResearchResult :=
  { market_summary :=
      "The romance market is experiencing its strongest cycle in over a decade, driven by BookTok and Kindle Unlimited's binge-reading culture. Dark romance and fated mates tropes are dominating discovery algorithms."
    research_sources := ["Amazon Bestsellers", "BookTok Feb 2026", "KDP data"]
    recommended_opportunity :=
      { genre := "Romance"
        subgenre := "Fated Mates Shifter Romance"
        demand_score := 91
        competition_level := "medium"
        trend_direction := "rising"
        suggested_price_ebook := 4.99
        suggested_price_paperback := 14.99
        target_audience := "Women 25-45, Kindle Unlimited subscribers"
        keywords :=
          ["fated mates romance", "wolf shifter romance", "paranormal romance",
           "alpha mate", "dark romance", "enemies to lovers", "bear shifter"]
        why_now :=
          "#fatedmates has surpassed 2.8B TikTok views. The trope merges perfectly with paranormal worldbuilding. Amazon algorithm currently favors series starters in this niche."
        estimated_monthly_revenue := "$1,200-3,500" }
    opportunities :=
      [{ genre := "Romance"
         subgenre := "Fated Mates Shifter Romance"
         demand_score := 91
         competition_level := "medium"
         trend_direction := "rising"
         suggested_price_ebook := 4.99
         suggested_price_paperback := 14.99
         target_audience := "Women 25-45, Kindle Unlimited subscribers"
         keywords := ["fated mates", "wolf shifter", "paranormal romance"]
         why_now :=
           "#fatedmates has surpassed 2.8B TikTok views. Amazon algorithm favors series starters in this niche."
         estimated_monthly_revenue := "$1,200-3,500" },
       { genre := "Self-Help"
         subgenre := "AI Productivity for Entrepreneurs"
         demand_score := 84
         competition_level := "low"
         trend_direction := "rising"
         suggested_price_ebook := 9.99
         suggested_price_paperback := 24.99
         target_audience := "Entrepreneurs 28-45, tech-forward professionals"
         keywords := ["AI productivity", "entrepreneur success", "automation"]
         why_now :=
           "AI adoption is exploding. Business owners searching for practical guides. Very low-quality competition in this specific angle."
         estimated_monthly_revenue := "$900-2,800" },
       { genre := "Mystery"
         subgenre := "Cozy Mystery with Cat Protagonist"
         demand_score := 78
         competition_level := "low"
         trend_direction := "stable"
         suggested_price_ebook := 3.99
         suggested_price_paperback := 12.99
         target_audience := "Women 45+, cozy mystery fans, pet lovers"
         keywords := ["cozy mystery", "cat mystery", "small town mystery"]
         why_now :=
           "Cozy mystery readership grew 23% in 2025. Cat-themed books consistently outperform genre averages. KU readers binge entire series."
         estimated_monthly_revenue := "$600-1,800" }] }

/-- Outcome of the research request: `fail` covers a thrown fetch, a non-ok
response (`if (!res.ok) throw`) and an unparsable body; `ok` the parsed
response. -/
inductive ResearchFetchOutcome
  | fail
  | ok (data : ResearchResult)
deriving DecidableEq, Repr

/-- The component state `runResearch` leaves behind: the `step`, `research`,
`selectedOpportunity` and `error` state variables. -/
structure ResearchState where
  step : String
  research : Option ResearchResult
  selectedOpportunity : Option Opportunity
  error : Option String
deriving DecidableEq, Repr

/-- `runResearch` translated from the dashboard: `setError(null)` up front; on
success store the data and its recommended opportunity; on any failure the
catch block stores `mockResearch` instead — with no production check and no
error set; either way the step becomes `research_done`. -/
def runResearch : ResearchFetchOutcome → ResearchState
  | ResearchFetchOutcome.ok data =>
    { step := "research_done", research := some data
      selectedOpportunity := some data.recommended_opportunity, error := none }
  | ResearchFetchOutcome.fail =>
    { step := "research_done", research := some mockResearch
      selectedOpportunity := some mockResearch.recommended_opportunity
      error := none }

/-! ## The `book_jobs` table and its row-level security (SQL migration 002)

`getJob` is a select over `book_jobs` under the policy
`"Users can view own book jobs" ... using (auth.uid() = user_id)`: a reader
sees exactly the rows whose `user_id` equals their uid. -/

/-- One row of `public.book_jobs` (migration 002).  Uuids and timestamps are
numbered abstractly; the jsonb payloads are kept as opaque strings. -/
structure BookJobRow where
  id : Nat
  user_id : Nat
  status : String
  progress : Int
  step : Option String
  request_json : Option String
  result_json : Option String
  error : Option String
  created_at : Nat
  updated_at : Nat
deriving DecidableEq, Repr

/-- Rows of `book_jobs` the select policy exposes to the authenticated user
`authUid`: those with `auth.uid() = user_id`. -/
def visibleBookJobs (authUid : Nat) (table : List BookJobRow) : List BookJobRow :=
  table.filter fun row => row.user_id == authUid

/-- A job-status lookup by id, as the status endpoint reads it through the
policy-filtered table: the first visible row with the requested id, if any. -/
def getJobRow (authUid jobId : Nat) (table : List BookJobRow) : Option BookJobRow :=
  (visibleBookJobs authUid table).find? fun row => row.id == jobId

/-! ## The Stripe webhook handler (billing webhook route)

The `POST` handler reads the body, requires a truthy `stripe-signature`
header and a truthy `STRIPE_WEBHOOK_SECRET`, verifies the signature with
`stripe.webhooks.constructEvent` (any throw answers 400), and only then
dispatches on the event type, issuing database writes and billing emails.
Verification is embedded as its outcome; the external lookups the handler
awaits are environment functions. -/

/-- The plan-to-credits table `PLAN_CREDITS`. -/
def PLAN_CREDITS : String → Option Int
  | "starter" => some 1
  | "pro" => some 5
  | "enterprise" => some 20
  | _ => none

/-- `PLAN_CREDITS[plan] ?? 1`. -/
def planCreditsOrOne (plan : String) : Int :=
  (PLAN_CREDITS plan).getD 1

/-- The fields of a `checkout.session.completed` event the handler reads. -/
structure CheckoutSession where
  metadata_supabase_user_id : Option String
  metadata_plan : Option String
  subscription : Option String
  customer : Option String
deriving DecidableEq, Repr

/-- The fields of a Stripe subscription object the handler reads. -/
structure StripeSubscription where
  id : String
  metadata_supabase_user_id : Option String
  metadata_plan : Option String
  status : String
  cancel_at_period_end : Bool
  current_period_end : Option Nat
deriving DecidableEq, Repr

/-- The field of an `invoice.payment_failed` event the handler reads. -/
structure StripeInvoice where
  customer : String
deriving DecidableEq, Repr

/-- A verified Stripe webhook event, dispatched on `event.type`; `other` is
every type the switch ignores. -/
inductive StripeEvent
  | checkoutSessionCompleted (session : CheckoutSession)
  | customerSubscriptionUpdated (subscription : StripeSubscription)
  | customerSubscriptionDeleted (subscription : StripeSubscription)
  | invoicePaymentFailed (invoice : StripeInvoice)
  | other
deriving DecidableEq, Repr

/-- The profile row `getProfileByCustomerId` selects: `id,email,plan`. -/
structure StripeProfile where
  id : String
  email : Option String
  plan : String
deriving DecidableEq, Repr

/-- One database write the handler issues, one constructor per
`supabaseAdmin` call site. -/
inductive DbEffect
  | activateProfile (userId plan : String) (credits : Int) (customerId : String)
  | upsertSubscription (userId subscriptionId customerId plan : String)
      (periodEnd : Nat)
  | updateSubscriptionRow (subscriptionId plan status : String) (periodEnd : Nat)
      (cancelAtPeriodEnd : Bool)
  | refreshProfilePlan (userId plan : String) (credits : Int)
  | downgradeProfile (userId : String)
  | cancelSubscriptionRow (subscriptionId : String)
  | markSubscriptionPastDue (customerId : String)
deriving DecidableEq, Repr

/-- One billing email request: the `to` recipient and the subject. -/
structure EmailEffect where
  recipient : String
  subject : String
deriving DecidableEq, Repr

/-- The external state the handler consults: configured secrets, the clock,
the Stripe subscription lookup and the two profile lookups. -/
structure WebhookEnv where
  webhookSecret : Option String
  resendApiKey : Option String
  nowSec : Nat
  retrieveSubscription : String → StripeSubscription
  profileEmailByUserId : String → Option String
  profileByCustomerId : String → Option StripeProfile

/-- The observable answer of one webhook request: the HTTP status and the
database writes and emails performed. -/
structure WebhookResponse where
  status : Nat
  dbEffects : List DbEffect
  emails : List EmailEffect
deriving DecidableEq, Repr

/-- `sendBillingEmail`: no-op unless `RESEND_API_KEY` is truthy. -/
def sendBillingEmail (env : WebhookEnv) (recipient subject : String) :
    List EmailEffect :=
  if jsTruthy env.resendApiKey then [⟨recipient, subject⟩] else []

/-- The event switch of the handler, translated case by case; each case
answers `{ received: true }` (status 200) with the writes and emails it
performed. -/
def handleStripeEvent (env : WebhookEnv) : StripeEvent → WebhookResponse
  | StripeEvent.checkoutSessionCompleted session =>
    if !jsTruthy session.metadata_supabase_user_id ||
        !jsTruthy session.metadata_plan || !jsTruthy session.subscription ||
        !jsTruthy session.customer then
      ⟨200, [], []⟩
    else
      let userId := session.metadata_supabase_user_id.getD ""
      let plan := session.metadata_plan.getD ""
      let subscription := env.retrieveSubscription (session.subscription.getD "")
      let periodEnd := subscription.current_period_end.getD env.nowSec
      let writes :=
        [DbEffect.activateProfile userId plan (planCreditsOrOne plan)
           (session.customer.getD ""),
         DbEffect.upsertSubscription userId subscription.id
           (session.customer.getD "") plan periodEnd]
      let email := env.profileEmailByUserId userId
      let emails :=
        if jsTruthy email then
          sendBillingEmail env (email.getD "")
            ("BOOKFORGE " ++ plan ++ " plan activated")
        else []
      ⟨200, writes, emails⟩
  | StripeEvent.customerSubscriptionUpdated subscription =>
    if !jsTruthy subscription.metadata_supabase_user_id ||
        !jsTruthy subscription.metadata_plan then
      ⟨200, [], []⟩
    else
      let userId := subscription.metadata_supabase_user_id.getD ""
      let plan := subscription.metadata_plan.getD ""
      let periodEnd := subscription.current_period_end.getD env.nowSec
      let writes :=
        [DbEffect.updateSubscriptionRow subscription.id plan subscription.status
           periodEnd subscription.cancel_at_period_end]
      if subscription.status = "active" then
        let writes :=
          writes ++ [DbEffect.refreshProfilePlan userId plan (planCreditsOrOne plan)]
        let email := env.profileEmailByUserId userId
        let emails :=
          if jsTruthy email && subscription.cancel_at_period_end then
            sendBillingEmail env (email.getD "") "BOOKFORGE subscription update"
          else []
        ⟨200, writes, emails⟩
      else ⟨200, writes, []⟩
  | StripeEvent.customerSubscriptionDeleted subscription =>
    if !jsTruthy subscription.metadata_supabase_user_id then ⟨200, [], []⟩
    else
      let userId := subscription.metadata_supabase_user_id.getD ""
      let writes :=
        [DbEffect.downgradeProfile userId,
         DbEffect.cancelSubscriptionRow subscription.id]
      let email := env.profileEmailByUserId userId
      let emails :=
        if jsTruthy email then
          sendBillingEmail env (email.getD "") "BOOKFORGE subscription canceled"
        else []
      ⟨200, writes, emails⟩
  | StripeEvent.invoicePaymentFailed invoice =>
    match env.profileByCustomerId invoice.customer with
    | none => ⟨200, [], []⟩
    | some profile =>
      let writes := [DbEffect.markSubscriptionPastDue invoice.customer]
      let emails :=
        if jsTruthy profile.email then
          sendBillingEmail env (profile.email.getD "") "BOOKFORGE payment failed"
        else []
      ⟨200, writes, emails⟩
  | StripeEvent.other => ⟨200, [], []⟩

/-- The webhook `POST` handler: 400 with no effects when the
`stripe-signature` header or `STRIPE_WEBHOOK_SECRET` is missing or empty,
400 with no effects when `constructEvent` throws (`verified = none`), and
otherwise the event switch. -/
def webhookPOST (env : WebhookEnv) (sig : Option String)
    (verified : Option StripeEvent) : WebhookResponse :=
  if !jsTruthy sig || !jsTruthy env.webhookSecret then ⟨400, [], []⟩
  else
    match verified with
    | none => ⟨400, [], []⟩
    | some event => handleStripeEvent env event

/-! ## The credit-reset cron endpoint

`isAuthorized` and the `POST` handler of the monthly credit-reset route. -/

/-- `isAuthorized` translated from the route: `if (!secret) return true`
(undefined and the empty string are both falsy), then
`if (headerSecret && headerSecret === secret) return true`, then
`if (bearer === "Bearer " + secret) return true`, else false. -/
def isAuthorized (cronSecret authorizationHeader xCronSecretHeader : Option String) :
    Bool :=
  if !jsTruthy cronSecret then true
  else
    let secret := cronSecret.getD ""
    if jsTruthy xCronSecretHeader && (xCronSecretHeader == some secret) then true
    else authorizationHeader == some ("Bearer " ++ secret)

/-- The observable answer of one credit-reset request: the HTTP status and
the `(plan, credits)` profile updates issued. -/
structure CreditResetResponse where
  status : Nat
  profileUpdates : List (String × Int)
deriving DecidableEq, Repr

/-- The credit-reset `POST` handler: 401 with no updates when unauthorized;
otherwise one `credits_remaining` update per entry of `PLAN_CREDITS`, in
insertion order. -/
def creditResetPOST (cronSecret authorizationHeader xCronSecretHeader : Option String) :
    CreditResetResponse :=
  if !isAuthorized cronSecret authorizationHeader xCronSecretHeader then ⟨401, []⟩
  else ⟨200, [("starter", 1), ("pro", 5), ("enterprise", 20)]⟩

/-- Stated from the claim's words, for comparison with `isAuthorized`: accept
everything when the secret is unset; when it is set accept exactly a matching
`x-cron-secret` header or a matching bearer `Authorization` header. -/
def claimedCronAuthorization
    (cronSecret authorizationHeader xCronSecretHeader : Option String) : Bool :=
  match cronSecret with
  | none => true
  | some secret =>
    (xCronSecretHeader == some secret) ||
    (authorizationHeader == some ("Bearer " ++ secret))

/-! ## Concrete sample inputs

Closed inputs used to evaluate the embedded operations at concrete points. -/

/-- The initial displayed state: progress 0, empty step label. -/
def d0 : Display := ⟨0, ""⟩

/-- A non-terminal status body: status `running`, progress 150 (out of
range on purpose, to exercise the clamp), a step label, no result, no
error. -/
def sampleRunningResp : JobStatusResponse Nat :=
  ⟨"running", some 150, some "Writing Chapter 1...", none, none⟩

/-- A terminal status body: status `completed` with a stored result. -/
def sampleCompletedResp : JobStatusResponse Nat :=
  ⟨"completed", some 100, none, some 7, none⟩

/-- A fetch trace that always answers the running status. -/
def runningFetch : Nat → FetchResult Nat :=
  fun _ => FetchResult.ok sampleRunningResp

/-- A fetch trace failing at tick 0 and answering the completed status from
tick 1 on. -/
def transientThenCompleted : Nat → FetchResult Nat :=
  fun k => if k = 0 then FetchResult.notOk else FetchResult.ok sampleCompletedResp

/-- A fetch trace that always answers the completed status. -/
def completedFetch : Nat → FetchResult Nat :=
  fun _ => FetchResult.ok sampleCompletedResp

/-- A clock advancing by exactly the inter-poll delay each tick. -/
def tickClock : Nat → Nat := fun k => pollDelayMs * k

/-- A clock whose first reading already sits at the timeout bound and then
advances by the inter-poll delay each tick. -/
def lateClock : Nat → Nat := fun k => 900000 + 1800 * k

/-- A complete generation request: all required fields present. -/
def sampleRequest : RequestPayload :=
  ⟨some "Romance", some "Fated Mates Shifter Romance", some "Women 25-45",
   ["fated mates romance"], PlanTier.pro, ⟨true, true, false⟩⟩

/-- The job record `createJob` makes from `sampleRequest`. -/
def sampleCreatedJob : JobRecord Nat :=
  { status := JobStatus.queued, progress := 0, step := none
    request := sampleRequest, result := none, error := none }

/-- A completed job record. -/
def sampleTerminalJob : JobRecord Nat :=
  { status := JobStatus.completed, progress := 100, step := none
    request := sampleRequest, result := some 7, error := none }

/-- A stored job row owned by user 1 under a different id. -/
def sampleRowOwnOtherId : BookJobRow :=
  ⟨6, 1, "queued", 0, none, none, none, none, 0, 0⟩

/-- A stored job row with the looked-up id, owned by user 2. -/
def sampleRowOtherOwner : BookJobRow :=
  ⟨5, 2, "running", 40, some "Writing Chapter 1...", none, none, none, 0, 0⟩

/-- A webhook environment with a configured secret and empty lookups. -/
def sampleWebhookEnv : WebhookEnv :=
  { webhookSecret := some "whsec_test", resendApiKey := none
    nowSec := 1700000000
    retrieveSubscription := fun subId =>
      ⟨subId, none, none, "active", false, some 1700003600⟩
    profileEmailByUserId := fun _ => none
    profileByCustomerId := fun _ => none }

/-! ## Theorems -/

/-- C3: the Plan Gate decision table holds: starter takes the synchronous
path with full manuscript, cover image and audiobook all disabled; pro and
enterprise take the asynchronous job path with full manuscript and cover
image enabled; only enterprise enables the audiobook stage.  Both the
spec-modelled server gate and the dashboard's own path selection and stage
flags (for the columns it computes) agree with the table. -/
theorem c3_plan_gate_decision_table :
    planGatePath PlanTier.starter = SubmitPath.sync ∧
    planGateStages PlanTier.starter = ⟨false, false, false⟩ ∧
    planGatePath PlanTier.pro = SubmitPath.async ∧
    planGateStages PlanTier.pro = ⟨true, true, false⟩ ∧
    planGatePath PlanTier.enterprise = SubmitPath.async ∧
    planGateStages PlanTier.enterprise = ⟨true, true, true⟩ ∧
    (∀ plan : PlanTier,
      (planGateStages plan).generate_audiobook = true ↔ plan = PlanTier.enterprise) ∧
    dashboardPath PlanTier.starter = SubmitPath.sync ∧
    dashboardFlags PlanTier.starter = ⟨false, false, false⟩ ∧
    dashboardPath PlanTier.pro = SubmitPath.async ∧
    (dashboardFlags PlanTier.pro).generate_full_book = true ∧
    (dashboardFlags PlanTier.pro).generate_cover_image = true ∧
    dashboardPath PlanTier.enterprise = SubmitPath.async ∧
    (dashboardFlags PlanTier.enterprise).generate_full_book = true ∧
    (dashboardFlags PlanTier.enterprise).generate_cover_image = true := by
  decide

/-- C7: at the failing input — a research request whose external fetch fails
(non-ok response or thrown fetch) — `runResearch` silently substitutes the
hardcoded `mockResearch` sample data: the stored research is the mock
constant, an opportunity is auto-selected from it, the flow proceeds to
`research_done`, and no error is surfaced.  The fallback has no environment
guard, so this also runs in production, against the spec's explicit-error
policy. -/
theorem c7_research_fallback_to_mock :
    runResearch ResearchFetchOutcome.fail =
      { step := "research_done", research := some mockResearch
        selectedOpportunity := some mockResearch.recommended_opportunity
        error := none } ∧
    (runResearch ResearchFetchOutcome.fail).error = none ∧
    (runResearch ResearchFetchOutcome.fail).research ≠ none :=
  ⟨rfl, rfl, by decide⟩

/-- C1 counterexample: a fetch trace that fails once at tick 0 and answers
status `completed` from tick 1 on, well before the timeout.  The polling
loop aborts at the first failed fetch with a fetch error — it does not retry
on the next tick — while the same trace without the transient failure
delivers the terminal result. -/
theorem c1_transient_fetch_counterexample :
    (pollLoop tickClock transientThenCompleted 0 generationTimeoutMs 10 0 d0).1 =
      PollOutcome.fetchError ∧
    (pollLoop tickClock completedFetch 0 generationTimeoutMs 10 0 d0).1 =
      PollOutcome.completed (some 7) := by
  decide

/-- C1 (amended): a failed status-fetch attempt is surfaced as its own error
class — the loop ends with the fetch error, not a job failure and not the
job's result — but it is not tolerated: within the timeout, the first non-ok
fetch aborts the polling loop immediately instead of retrying on the next
scheduled tick. -/
theorem c1_poller_aborts_on_failed_fetch {α : Type} (now : Nat → Nat)
    (fetch : Nat → FetchResult α) (start timeoutMs fuel k : Nat) (d : Display)
    (hTime : ¬ now k - start > timeoutMs)
    (hFetch : fetch k = FetchResult.notOk) :
    pollLoop now fetch start timeoutMs (fuel + 1) k d =
      (PollOutcome.fetchError, d) := by
  simp [pollLoop, hTime, hFetch]

/-- C1 (amended) at a concrete input: the transient-then-completed trace
aborts with the fetch error at tick 0. -/
theorem c1_poller_aborts_on_failed_fetch_witness :
    pollLoop tickClock transientThenCompleted 0 generationTimeoutMs (9 + 1) 0 d0 =
      (PollOutcome.fetchError, d0) :=
  c1_poller_aborts_on_failed_fetch tickClock transientThenCompleted 0
    generationTimeoutMs 9 0 d0 (by decide) rfl

/-- C6: per-fetch behavior of the polling loop within the timeout: status
`completed` returns the stored result and stops; `failed` surfaces the
stored error (or the default message) and stops; any other status continues
polling with the displayed progress and step updated, and the displayed
progress stays clamped below 100 (at most 99). -/
theorem c6_poll_fetch_behavior {α : Type} (now : Nat → Nat)
    (fetch : Nat → FetchResult α) (start timeoutMs fuel k : Nat) (d : Display)
    (resp : JobStatusResponse α)
    (hTime : ¬ now k - start > timeoutMs)
    (hFetch : fetch k = FetchResult.ok resp) :
    (resp.status = "completed" →
      pollLoop now fetch start timeoutMs (fuel + 1) k d =
        (PollOutcome.completed resp.result, displayUpdate resp d)) ∧
    (resp.status = "failed" →
      pollLoop now fetch start timeoutMs (fuel + 1) k d =
        (PollOutcome.jobFailed (jsOrString resp.error "Generation failed"),
         displayUpdate resp d)) ∧
    (resp.status ≠ "completed" → resp.status ≠ "failed" →
      pollLoop now fetch start timeoutMs (fuel + 1) k d =
        pollLoop now fetch start timeoutMs fuel (k + 1) (displayUpdate resp d)) ∧
    (d.progress ≤ 99 → (displayUpdate resp d).progress ≤ 99) := by
  refine ⟨?_, ?_, ?_, ?_⟩
  · intro h
    simp [pollLoop, hTime, hFetch, h]
  · intro h
    simp [pollLoop, hTime, hFetch, h]
  · intro hc hf
    simp [pollLoop, hTime, hFetch, hc, hf]
  · intro hd
    unfold displayUpdate
    rcases hp : resp.progress with _ | p <;>
      rcases hs : resp.step with _ | st <;> simp only [hp, hs]
    · exact hd
    · split
      · exact hd
      · exact hd
    · exact min_le_left _ _
    · split
      · exact min_le_left _ _
      · exact min_le_left _ _

/-- C6 at a concrete input: a running status with out-of-range progress 150
continues the loop, and the displayed progress is clamped to 99. -/
theorem c6_poll_fetch_behavior_witness :
    pollLoop tickClock runningFetch 0 generationTimeoutMs (3 + 1) 0 d0 =
      pollLoop tickClock runningFetch 0 generationTimeoutMs 3 1
        (displayUpdate sampleRunningResp d0) ∧
    (displayUpdate sampleRunningResp d0).progress ≤ 99 :=
  ⟨(c6_poll_fetch_behavior tickClock runningFetch 0 generationTimeoutMs 3 0 d0
      sampleRunningResp (by decide) rfl).2.2.1 (by decide) (by decide),
   (c6_poll_fetch_behavior tickClock runningFetch 0 generationTimeoutMs 3 0 d0
      sampleRunningResp (by decide) rfl).2.2.2 (by decide)⟩

/-- Under the inter-poll delay, a fetch trace that never shows a terminal
status drives the loop into the timeout abort: helper induction for the
timeout theorem. -/
theorem pollLoop_timeout_of_nonterminal {α : Type} (now : Nat → Nat)
    (fetch : Nat → FetchResult α) (start timeoutMs : Nat)
    (hmono : ∀ j, now j + pollDelayMs ≤ now (j + 1))
    (hlive : ∀ k, ∃ resp, fetch k = FetchResult.ok resp ∧
      resp.status ≠ "completed" ∧ resp.status ≠ "failed") :
    ∀ fuel k d, start ≤ now k →
      start + timeoutMs < now k + pollDelayMs * fuel →
      (pollLoop now fetch start timeoutMs (fuel + 1) k d).1 =
        PollOutcome.timeout := by
  intro fuel
  induction fuel with
  | zero =>
    intro k d hk hbound
    have htime : now k - start > timeoutMs := by
      simp [pollDelayMs] at hbound
      omega
    simp [pollLoop, htime]
  | succ m ih =>
    intro k d hk hbound
    by_cases htime : now k - start > timeoutMs
    · simp [pollLoop, htime]
    · obtain ⟨resp, hfetch, hc, hf⟩ := hlive k
      have hrec : pollLoop now fetch start timeoutMs (m + 1 + 1) k d =
          pollLoop now fetch start timeoutMs (m + 1) (k + 1)
            (displayUpdate resp d) := by
        simp [pollLoop, htime, hfetch, hc, hf]
      rw [hrec]
      have hdm := hmono k
      apply ih
      · simp [pollDelayMs] at hdm
        omega
      · simp [pollDelayMs] at hdm hbound ⊢
        omega

/-- C2: the Client Poller terminates.  With the loop's inter-poll delay —
each timeout check happens at least 1800 ms after the previous one — and a
fetch trace that never shows a terminal state, the loop aborts with the
timeout error as soon as the 15-minute wall clock (`timeoutMs = 15*60*1000`)
is exceeded, within the stated iteration bound; the outcome is a pure
function of the fetch trace, carrying no cancellation of the detached
Runner. -/
theorem c2_poller_timeout_terminates {α : Type} (now : Nat → Nat)
    (fetch : Nat → FetchResult α) (start fuel : Nat) (d : Display)
    (hmono : ∀ j, now j + pollDelayMs ≤ now (j + 1))
    (hstart : start ≤ now 0)
    (hfuel : start + generationTimeoutMs < now 0 + pollDelayMs * fuel)
    (hlive : ∀ k, ∃ resp, fetch k = FetchResult.ok resp ∧
      resp.status ≠ "completed" ∧ resp.status ≠ "failed") :
    (pollLoop now fetch start generationTimeoutMs (fuel + 1) 0 d).1 =
      PollOutcome.timeout :=
  pollLoop_timeout_of_nonterminal now fetch start generationTimeoutMs hmono
    hlive fuel 0 d hstart hfuel

/-- C2 at a concrete input: a clock starting at the timeout bound makes the
loop abort with the timeout error on its second check, the job still
running. -/
theorem c2_poller_timeout_terminates_witness :
    (pollLoop lateClock runningFetch 0 generationTimeoutMs (1 + 1) 0 d0).1 =
      PollOutcome.timeout :=
  c2_poller_timeout_terminates lateClock runningFetch 0 1 d0
    (fun j => by simp [lateClock, pollDelayMs]; omega)
    (by simp [lateClock])
    (by decide)
    (fun k => ⟨sampleRunningResp, rfl, by decide, by decide⟩)

/-- C4: once a job is terminal (completed or failed), every further mutation
— updateProgress, completeJob or failJob — is rejected with
`InvalidTransitionError`, and under any sequence of mutation requests the
stored record never changes again. -/
theorem c4_terminal_jobs_reject_mutation {α : Type} (j : JobRecord α)
    (h : j.status.isTerminal = true) :
    (∀ op : JobOp α,
      applyOp op j = Except.error JobStoreError.invalidTransitionError) ∧
    (∀ ops : List (JobOp α), runOps ops j = j) := by
  have hop : ∀ op : JobOp α,
      applyOp op j = Except.error JobStoreError.invalidTransitionError := by
    intro op
    cases op <;> simp [applyOp, updateProgress, completeJob, failJob, h]
  refine ⟨hop, ?_⟩
  intro ops
  induction ops with
  | nil => rfl
  | cons op ops ih =>
    simp only [runOps, List.foldl_cons, hop op]
    exact ih

/-- C4 at a concrete input: a completed job rejects a second completion and
is unchanged by a fail-then-update sequence. -/
theorem c4_terminal_jobs_reject_mutation_witness :
    applyOp (JobOp.complete 9) sampleTerminalJob =
      Except.error JobStoreError.invalidTransitionError ∧
    runOps [JobOp.fail "boom", JobOp.update JobStatus.running 50 none]
        sampleTerminalJob = sampleTerminalJob :=
  ⟨(c4_terminal_jobs_reject_mutation sampleTerminalJob rfl).1 _,
   (c4_terminal_jobs_reject_mutation sampleTerminalJob rfl).2 _⟩

/-- A successful Job Store mutation preserves the result/error exclusivity
invariant. -/
theorem applyOp_preserves_invariant {α : Type} {j j2 : JobRecord α}
    {op : JobOp α} (hinv : resultErrorInvariant j)
    (h : applyOp op j = Except.ok j2) : resultErrorInvariant j2 := by
  have hterm : j.status.isTerminal = false := by
    cases hx : j.status.isTerminal
    · rfl
    · cases op <;> simp [applyOp, updateProgress, completeJob, failJob, hx] at h
  have hne : j.result = none ∧ j.error = none := by
    unfold resultErrorInvariant at hinv
    cases hs : j.status
    · rw [hs] at hinv; exact hinv
    · rw [hs] at hinv; exact hinv
    · rw [hs] at hterm; simp [JobStatus.isTerminal] at hterm
    · rw [hs] at hterm; simp [JobStatus.isTerminal] at hterm
  cases op with
  | update status progress step =>
    by_cases hts : status.isTerminal = true
    · simp [applyOp, updateProgress, hterm, hts] at h
    · simp [applyOp, updateProgress, hterm, hts] at h
      subst h
      unfold resultErrorInvariant
      cases status
      · exact hne
      · exact hne
      · simp [JobStatus.isTerminal] at hts
      · simp [JobStatus.isTerminal] at hts
  | complete result =>
    simp [applyOp, completeJob, hterm] at h
    subst h
    simp [resultErrorInvariant, hne.2]
  | fail message =>
    simp [applyOp, failJob, hterm] at h
    subst h
    simp [resultErrorInvariant, hne.1]

/-- Any sequence of mutation requests preserves the result/error exclusivity
invariant (rejected requests leave the record unchanged). -/
theorem runOps_preserves_invariant {α : Type} (ops : List (JobOp α))
    (j : JobRecord α) (hinv : resultErrorInvariant j) :
    resultErrorInvariant (runOps ops j) := by
  induction ops generalizing j with
  | nil => exact hinv
  | cons op ops ih =>
    simp only [runOps, List.foldl_cons]
    cases hop : applyOp op j with
    | ok j2 =>
      simp only [hop]
      exact ih j2 (applyOp_preserves_invariant hinv hop)
    | error e =>
      simp only [hop]
      exact ih j hinv

/-- C5: for every job record reachable from creation through any sequence of
Job Store mutations, exactly one of result and error is populated once the
status is terminal — result for completed, error for failed — and neither is
populated while queued or running. -/
theorem c5_result_error_exclusivity {α : Type} (request : RequestPayload)
    (j0 : JobRecord α) (ops : List (JobOp α))
    (hcreate : createJob α request = Except.ok j0) :
    resultErrorInvariant (runOps ops j0) := by
  have hinv : resultErrorInvariant j0 := by
    unfold createJob at hcreate
    split at hcreate
    · exact absurd hcreate (by simp)
    · simp only [Except.ok.injEq] at hcreate
      subst hcreate
      simp [resultErrorInvariant]
  exact runOps_preserves_invariant ops j0 hinv

/-- C5 at a concrete input: a freshly created job driven through a progress
update and a completion keeps the exclusivity invariant. -/
theorem c5_result_error_exclusivity_witness :
    resultErrorInvariant
      (runOps
        [JobOp.update JobStatus.running 35 (some "Building book structure..."),
         JobOp.complete 7] sampleCreatedJob) :=
  c5_result_error_exclusivity sampleRequest sampleCreatedJob
    [JobOp.update JobStatus.running 35 (some "Building book structure..."),
     JobOp.complete 7] rfl

/-- A lookup through the row-level-security filter answers `none` whenever no
row carries both the requested id and the reader's uid. -/
theorem getJobRow_eq_none {uid jobId : Nat} {t : List BookJobRow}
    (h : ∀ r ∈ t, r.id = jobId → r.user_id ≠ uid) :
    getJobRow uid jobId t = none := by
  unfold getJobRow visibleBookJobs
  rw [List.find?_eq_none]
  intro r hr
  rw [List.mem_filter] at hr
  have huser : r.user_id = uid := by simpa using hr.2
  simp only [beq_iff_eq]
  intro hid
  exact h r hr.1 hid huser

/-- C8: a job-status lookup by an owner fails with the same not-found
outcome whether no row with that id exists at all or a row with that id
exists under a different owner: both lookups answer `none`, so cross-owner
lookups never leak a job's existence. -/
theorem c8_not_found_indistinguishable (uid jobId : Nat)
    (t1 t2 : List BookJobRow)
    (h1 : ∀ r ∈ t1, r.id ≠ jobId)
    (h2 : ∀ r ∈ t2, r.id = jobId → r.user_id ≠ uid) :
    getJobRow uid jobId t1 = none ∧ getJobRow uid jobId t2 = none ∧
    getJobRow uid jobId t1 = getJobRow uid jobId t2 := by
  have e1 : getJobRow uid jobId t1 = none :=
    getJobRow_eq_none fun r hr hid => absurd hid (h1 r hr)
  have e2 : getJobRow uid jobId t2 = none := getJobRow_eq_none h2
  exact ⟨e1, e2, e1.trans e2.symm⟩

/-- C8 at a concrete input: user 1 looking up job 5 sees `none` both against
a table without that id and against a table where job 5 belongs to user 2. -/
theorem c8_not_found_indistinguishable_witness :
    getJobRow 1 5 [sampleRowOwnOtherId] = none ∧
    getJobRow 1 5 [sampleRowOtherOwner] = none ∧
    getJobRow 1 5 [sampleRowOwnOtherId] = getJobRow 1 5 [sampleRowOtherOwner] :=
  c8_not_found_indistinguishable 1 5 [sampleRowOwnOtherId] [sampleRowOtherOwner]
    (by decide) (by decide)

/-- C9: every webhook request whose `stripe-signature` header is missing (or
empty), whose webhook secret is unconfigured (or empty), or whose signature
verification throws, is answered with HTTP 400, no database write and no
email — the stored state is unchanged on rejected requests. -/
theorem c9_webhook_rejects_without_effects (env : WebhookEnv)
    (sig : Option String) (verified : Option StripeEvent)
    (h : jsTruthy sig = false ∨ jsTruthy env.webhookSecret = false ∨
      verified = none) :
    webhookPOST env sig verified = ⟨400, [], []⟩ := by
  unfold webhookPOST
  rcases h with h | h | h
  · simp [h]
  · simp [h]
  · subst h
    split
    · rfl
    · rfl

/-- C9 at a concrete input: a request without a `stripe-signature` header is
answered 400 with no writes and no emails, even under a configured secret. -/
theorem c9_webhook_rejects_without_effects_witness :
    webhookPOST sampleWebhookEnv none (some StripeEvent.other) = ⟨400, [], []⟩ :=
  c9_webhook_rejects_without_effects sampleWebhookEnv none
    (some StripeEvent.other) (Or.inl rfl)

/-- C10 counterexample: with `CRON_SECRET` set to the empty string, a request
carrying no credential at all is accepted by the handler (and the credit
resets run), while the claim's authorization rule rejects it: the claimed
if-and-only-if fails for a set-but-empty secret. -/
theorem c10_empty_secret_counterexample :
    isAuthorized (some "") none none = true ∧
    claimedCronAuthorization (some "") none none = false ∧
    creditResetPOST (some "") none none =
      ⟨200, [("starter", 1), ("pro", 5), ("enterprise", 20)]⟩ := by
  decide

/-- C10 (amended): when `CRON_SECRET` is unset or empty every request is
accepted; when it is set to a non-empty value a request is accepted exactly
when its `x-cron-secret` header equals the secret or its `Authorization`
header is `Bearer ` followed by the secret; and every unauthorized request
receives HTTP 401 with no profile rows updated. -/
theorem c10_cron_auth_amended
    (cronSecret authorizationHeader xCronSecretHeader : Option String) :
    (jsTruthy cronSecret = false →
      isAuthorized cronSecret authorizationHeader xCronSecretHeader = true) ∧
    (∀ s : String, cronSecret = some s → s ≠ "" →
      (isAuthorized cronSecret authorizationHeader xCronSecretHeader = true ↔
        xCronSecretHeader = some s ∨
          authorizationHeader = some ("Bearer " ++ s))) ∧
    (isAuthorized cronSecret authorizationHeader xCronSecretHeader = false →
      creditResetPOST cronSecret authorizationHeader xCronSecretHeader =
        ⟨401, []⟩) := by
  refine ⟨?_, ?_, ?_⟩
  · intro h
    simp [isAuthorized, h]
  · rintro s rfl hs
    have hne : s.isEmpty = false := by
      cases hx : s.isEmpty
      · rfl
      · exact absurd ((String.isEmpty_iff s).mp hx) hs
    have hts : jsTruthy (some s) = true := by simp [jsTruthy, hne]
    have hred : isAuthorized (some s) authorizationHeader xCronSecretHeader =
        (if jsTruthy xCronSecretHeader && (xCronSecretHeader == some s) then true
         else authorizationHeader == some ("Bearer " ++ s)) := by
      simp [isAuthorized, hts]
    rw [hred]
    by_cases hb :
        (jsTruthy xCronSecretHeader && (xCronSecretHeader == some s)) = true
    · rw [if_pos hb]
      constructor
      · intro _
        rw [Bool.and_eq_true] at hb
        exact Or.inl (by simpa using hb.2)
      · intro _
        rfl
    · rw [if_neg hb]
      constructor
      · intro h
        exact Or.inr (by simpa using h)
      · intro h
        rcases h with h | h
        · exfalso
          apply hb
          subst h
          simp [hts]
        · subst h
          simp
  · intro h
    simp [creditResetPOST, h]

end BookForge
